import Mathlib

/-
  Verification development for the mindmaker-v2 gaze-tracking core.

  Shallow embedding of src/src/tracking/GazeMapper.ts and
  src/src/tracking/useTracker.ts (the first document in each file, which is
  the version the claims cite by line number).  JavaScript numbers are
  modelled as exact rationals; every comparison, guard threshold and state
  mutation is translated one-to-one from the source.

  Modelling notes, repeated at the definitions they concern:
  * Math.abs is the if-based jsAbs; Math.hypot(dx, dy) > T is modelled as
    dx^2 + dy^2 > T^2, equivalent for T >= 0 and free of square roots;
  * Math.sqrt inside normalizeFeatures is modelled by an exact rational
    square root that agrees with the real square root on perfect rational
    squares; every concrete input evaluated below keeps the radicand 0,
    where the agreement is exact;
  * JavaScript map((v, j) => ...) over an array is mapWithIndex;
  * the constant RIDGE_LAMBDA is imported by GazeMapper.ts from ../config,
    but src/src/config.ts does not define it (it appears only in the two
    alternate config documents, as 1.0 and 0.5), so the model passes the
    ridge coefficient lambda as an explicit parameter, exactly as the
    helper solveLeastSquares(A, b, lambda) receives it in the source.
-/

-- ===== Configuration constants (src/src/config.ts) =====

def EAR_THRESHOLD : ℚ := 21/100
def DOUBLE_BLINK_WINDOW_SEC : ℚ := 1/2
def BLINK_MIN_FRAMES : ℕ := 1
def BLINK_MAX_FRAMES : ℕ := 5
def GAZE_FREEZE_EAR : ℚ := 26/100
def GAZE_RECOVERY_FRAMES : ℕ := 8
def EYE_CLOSE_SELECT_SEC : ℚ := 2
def SMOOTHING_ALPHA : ℚ := 1/20
def MOVING_AVG_SIZE : ℕ := 15
def MIN_MOVE_PX : ℚ := 40

-- ===== GazeFeatures and samples (GazeMapper.ts) =====

/-- The GazeFeatures interface of the source: six scalar features
rx, ry, hx, hy, nx, ny.  (The source interface has no eyelid-aperture
field ey; this structure mirrors the source exactly.) -/
structure GazeFeatures where
  rx : ℚ
  ry : ℚ
  hx : ℚ
  hy : ℚ
  nx : ℚ
  ny : ℚ

/-- CalibrationSample extends GazeFeatures with the target screen point. -/
structure CalibrationSample extends GazeFeatures where
  screenX : ℚ
  screenY : ℚ

/-- polyFeatures of the source: the expanded feature vector
[1, rx, ry, hx, hy, nx, ny, rx*ry, rx^2, ry^2] (10 entries). -/
def polyFeatures (f : GazeFeatures) : List ℚ :=
  [1, f.rx, f.ry, f.hx, f.hy, f.nx, f.ny, f.rx * f.ry, f.rx * f.rx, f.ry * f.ry]

-- ===== Minimal linear algebra (GazeMapper.ts) =====

/-- Math.abs on rationals. -/
def jsAbs (q : ℚ) : ℚ := if q < 0 then -q else q

/-- Indexed map starting at i, the recursion behind mapWithIndex. -/
def mapIdxFrom (f : ℕ → α → β) : ℕ → List α → List β
  | _, [] => []
  | i, a :: as => f i a :: mapIdxFrom f (i + 1) as

/-- JavaScript map((v, j) => ...): map with the element index. -/
def mapWithIndex (f : ℕ → α → β) (l : List α) : List β := mapIdxFrom f 0 l

/-- transpose of the source (result[j][i] = A[i][j], sized cols x rows). -/
def transpose (A : List (List ℚ)) : List (List ℚ) :=
  (List.range (A.headD []).length).map (fun j => A.map (fun row => row.getD j 0))

/-- Dot product, mirroring reduce((sum, a, j) => sum + a * v[j], 0). -/
def dot (v w : List ℚ) : ℚ := (List.zipWith (fun a b => a * b) v w).sum

/-- matMul of the source: result[i][j] = sum over k of A[i][k] * B[k][j]. -/
def matMul (A B : List (List ℚ)) : List (List ℚ) :=
  A.map (fun row =>
    (List.range (B.headD []).length).map (fun j =>
      (List.zipWith (fun a brow => a * brow.getD j 0) row B).sum))

/-- matVecMul of the source. -/
def matVecMul (A : List (List ℚ)) (v : List ℚ) : List ℚ :=
  A.map (fun row => dot row v)

/-- Pivot scan of gaussianSolve: walk the candidate column entries keeping
the first index of strictly maximal absolute value (i is the index of v,
bi/bv the best so far).  The source starts with maxRow = col and scans the
later rows; starting the scan at the current row itself is harmless since
the first comparison is of the row against itself. -/
def argmaxAbsAux : ℕ → ℕ → ℚ → List ℚ → ℕ
  | _, bi, _, [] => bi
  | i, bi, bv, v :: vs =>
    if jsAbs v > jsAbs bv then argmaxAbsAux (i + 1) i v vs
    else argmaxAbsAux (i + 1) bi bv vs

/-- Index of the partial pivot among the current column entries. -/
def argmaxAbs (vals : List ℚ) : ℕ := argmaxAbsAux 0 0 (vals.headD 0) vals

/-- Forward elimination of gaussianSolve, with partial pivoting and the
1e-12 singularity guard.  Rows are kept relative to the current column: the
exactly-zeroed leading entries, which the source writes but never reads
again, are dropped by the final tail.  The source swap
[aug[col], aug[maxRow]] = [aug[maxRow], aug[col]] is mirrored by moving the
displaced first row into the pivot row's slot.  Fuel is the column count n
of the source loop. -/
def geForward : ℕ → List (List ℚ) → Option (List (List ℚ))
  | 0, _ => some []
  | _ + 1, [] => some []
  | fuel + 1, r0 :: rest0 =>
    let rows := r0 :: rest0
    let piv := argmaxAbs (rows.map (fun r => r.headD 0))
    let prow := rows.getD piv []
    if jsAbs (prow.headD 0) < (1 : ℚ)/10^12 then none
    else
      let rest := if piv = 0 then rest0 else rest0.set (piv - 1) r0
      let reduced := rest.map (fun r =>
        let factor := r.headD 0 / prow.headD 0
        (List.zipWith (fun a b => a - factor * b) r prow).tail)
      match geForward fuel reduced with
      | some tri => some (prow :: tri)
      | none => none

/-- Back substitution of gaussianSolve.  Row i holds
[a_ii, a_i(i+1) .. a_in, b_i] in the relative representation produced by
geForward. -/
def backSubst : List (List ℚ) → List ℚ
  | [] => []
  | r :: rest =>
    let xs := backSubst rest
    let x := (r.getD (rest.length + 1) 0 - dot (r.tail.take rest.length) xs) / r.headD 0
    x :: xs

/-- gaussianSolve of the source: augment, eliminate with partial pivoting
(none on a pivot below 1e-12), back substitute. -/
def gaussianSolve (A : List (List ℚ)) (b : List ℚ) : Option (List ℚ) :=
  match geForward A.length (List.zipWith (fun row bi => row ++ [bi]) A b) with
  | some tri => some (backSubst tri)
  | none => none

/-- The ridge loop of solveLeastSquares: AtA[i][i] += lambda for EVERY i,
including i = 0 (the bias row).  This mirrors the source exactly. -/
def addRidge (M : List (List ℚ)) (lam : ℚ) : List (List ℚ) :=
  mapWithIndex (fun i row => mapWithIndex (fun j v => if i = j then v + lam else v) row) M

/-- solveLeastSquares of the source: normal equations with the ridge term
added to the whole diagonal when lambda > 0. -/
def solveLeastSquares (A : List (List ℚ)) (b : List ℚ) (lam : ℚ) : Option (List ℚ) :=
  let At := transpose A
  let AtA := if 0 < lam then addRidge (matMul At A) lam else matMul At A
  gaussianSolve AtA (matVecMul At b)

/-- Modelled from the spec: the penalty matrix D prescribed by the
specification and the repository README has a zero at the (0,0) bias entry,
so that only w1..wn are penalized.  Used only for comparison with the
source ridge loop. -/
def addRidgeNoBias (M : List (List ℚ)) (lam : ℚ) : List (List ℚ) :=
  mapWithIndex (fun i row =>
    mapWithIndex (fun j v => if i = j ∧ i ≠ 0 then v + lam else v) row) M

/-- Modelled from the spec: solve (XtX + lambda D) w = Xty with D zero at
the bias entry (0,0). -/
def solveLeastSquaresBiasExcluded (A : List (List ℚ)) (b : List ℚ) (lam : ℚ) :
    Option (List ℚ) :=
  let At := transpose A
  let AtA := if 0 < lam then addRidgeNoBias (matMul At A) lam else matMul At A
  gaussianSolve AtA (matVecMul At b)

-- ===== Feature normalization (GazeMapper.ts) =====

/-- Floor of the natural square root, computed structurally. -/
def natSqrtFloor (n : ℕ) : ℕ :=
  ((List.range (n + 2)).filter (fun k => k * k ≤ n)).length - 1

/-- Exact rational square root used to model Math.sqrt in
normalizeFeatures.  It agrees with the real square root whenever the
argument is a perfect rational square; every radicand evaluated in the
theorems below is 0, where the agreement is exact. -/
def ratSqrt (q : ℚ) : ℚ := (natSqrtFloor q.num.toNat : ℚ) / (natSqrtFloor q.den : ℚ)

theorem ratSqrt_zero : ratSqrt 0 = 0 := by
  have h0 : natSqrtFloor 0 = 0 := by decide
  simp [ratSqrt, h0]

/-- normalizeFeatures of the source, as a pure function returning
(mean, std, normalized matrix).  Column 0 keeps mean 0 / std 1 and is left
as the constant 1; a column with std below 1e-9 gets std 1. -/
def normalizeFeatures (rawA : List (List ℚ)) : List ℚ × List ℚ × List (List ℚ) :=
  let nCols := (rawA.headD []).length
  let n : ℚ := rawA.length
  let mean := (List.range nCols).map (fun j =>
    if j = 0 then 0 else (rawA.map (fun row => row.getD j 0)).sum / n)
  let std := (List.range nCols).map (fun j =>
    if j = 0 then 1 else
      let s := ratSqrt ((rawA.map (fun row => (row.getD j 0 - mean.getD j 0)^2)).sum / n)
      if s < (1 : ℚ)/10^9 then 1 else s)
  (mean, std,
   rawA.map (fun row =>
     mapWithIndex (fun j v => if j = 0 then 1 else (v - mean.getD j 0) / std.getD j 0) row))

-- ===== GazeMapper state =====

/-- The mutable fields of the GazeMapper class. -/
structure MapperState where
  coeffsX : Option (List ℚ)
  coeffsY : Option (List ℚ)
  featMean : Option (List ℚ)
  featStd : Option (List ℚ)
  smoothX : ℚ
  smoothY : ℚ
  outputX : ℚ
  outputY : ℚ
  firstPrediction : Bool
  bufX : List ℚ
  bufY : List ℚ

/-- Field initializers of the GazeMapper class (also the state after
reset()). -/
def MapperState.initial : MapperState :=
  { coeffsX := none, coeffsY := none, featMean := none, featStd := none,
    smoothX := 0, smoothY := 0, outputX := 0, outputY := 0,
    firstPrediction := true, bufX := [], bufY := [] }

/-- The isCalibrated getter: coeffsX !== null. -/
def isCalibrated (s : MapperState) : Bool := s.coeffsX.isSome

/-- applyNormalization of the source: identity when no normalization is
stored, otherwise z-score columns 1.. and force column 0 to 1. -/
def applyNormalization (s : MapperState) (feat : List ℚ) : List ℚ :=
  match s.featMean, s.featStd with
  | some m, some d =>
    mapWithIndex (fun j v => if j = 0 then 1 else (v - m.getD j 0) / d.getD j 0) feat
  | _, _ => feat

/-- calibrate of the source.  Note the order of effects, translated
faithfully: normalizeFeatures stores featMean/featStd into the instance
BEFORE the two solves run, so a failed solve leaves those fields
overwritten while coeffsX/coeffsY keep their prior values. -/
def calibrate (s : MapperState) (samples : List CalibrationSample) (lam : ℚ) :
    MapperState × Bool :=
  if samples.length < 10 then (s, false)
  else
    let rawA := samples.map (fun x => polyFeatures x.toGazeFeatures)
    let nrm := normalizeFeatures rawA
    let A := nrm.2.2
    let s1 := { s with featMean := some nrm.1, featStd := some nrm.2.1 }
    let bx := samples.map (fun x => x.screenX)
    let bb := samples.map (fun x => x.screenY)
    match solveLeastSquares A bx lam, solveLeastSquares A bb lam with
    | some cx, some cy =>
      ({ s1 with coeffsX := some cx, coeffsY := some cy,
                 firstPrediction := true, bufX := [], bufY := [] }, true)
    | _, _ => (s1, false)

-- ===== predict (GazeMapper.ts) =====

/-- Stage 1 of predict: seed the EMA on the first prediction, otherwise
smoothed = alpha * input + (1 - alpha) * smoothedPrev. -/
def emaOrSeed (first : Bool) (raw prev : ℚ) : ℚ :=
  if first then raw else SMOOTHING_ALPHA * raw + (1 - SMOOTHING_ALPHA) * prev

/-- Stage 2 buffer push: append, then shift the oldest entry out when the
buffer exceeds MOVING_AVG_SIZE. -/
def pushBuf (buf : List ℚ) (v : ℚ) : List ℚ :=
  let b := buf ++ [v]
  if MOVING_AVG_SIZE < b.length then b.tail else b

/-- Moving average of a buffer. -/
def bufAvg (l : List ℚ) : ℚ := l.sum / (l.length : ℚ)

/-- predict of the source.  Returns the updated state and the clamped
point.  With no fitted model it returns the state unchanged and the
numeric point (0, 0), exactly as the source does.  The stage-3 dead zone
Math.hypot(dx, dy) > MIN_MOVE_PX is modelled as dx^2 + dy^2 > MIN_MOVE_PX^2,
equivalent since both sides are nonnegative.  The clamp bounds w and h are
window.innerWidth and window.innerHeight. -/
def predict (s : MapperState) (f : GazeFeatures) (w h : ℚ) :
    MapperState × (ℚ × ℚ) :=
  match s.coeffsX, s.coeffsY with
  | some cx, some cy =>
    let feat := applyNormalization s (polyFeatures f)
    let rawX := dot feat cx
    let rawY := dot feat cy
    let sx := emaOrSeed s.firstPrediction rawX s.smoothX
    let sy := emaOrSeed s.firstPrediction rawY s.smoothY
    let ox0 := if s.firstPrediction then rawX else s.outputX
    let oy0 := if s.firstPrediction then rawY else s.outputY
    let bX := pushBuf s.bufX sx
    let bY := pushBuf s.bufY sy
    let avgX := bufAvg bX
    let avgY := bufAvg bY
    let move := (avgX - ox0)^2 + (avgY - oy0)^2 > MIN_MOVE_PX^2
    let ox := if move then avgX else ox0
    let oy := if move then avgY else oy0
    ({ s with smoothX := sx, smoothY := sy, outputX := ox, outputY := oy,
              firstPrediction := false, bufX := bX, bufY := bY },
     (max 0 (min w ox), max 0 (min h oy)))
  | _, _ => (s, (0, 0))

/-- The moving-averaged prediction of a frame (the avgX/avgY values of
predict's stage 2), exposed for the dead-zone claim.  Built from the same
stage functions predict uses. -/
def predictAvg (s : MapperState) (f : GazeFeatures) : ℚ × ℚ :=
  match s.coeffsX, s.coeffsY with
  | some cx, some cy =>
    let feat := applyNormalization s (polyFeatures f)
    let sx := emaOrSeed s.firstPrediction (dot feat cx) s.smoothX
    let sy := emaOrSeed s.firstPrediction (dot feat cy) s.smoothY
    (bufAvg (pushBuf s.bufX sx), bufAvg (pushBuf s.bufY sy))
  | _, _ => (0, 0)

-- ===== Concrete calibration batches for the evaluation theorems =====

/-- A calibration sample whose six features all equal v. -/
def constSample (v tx ty : ℚ) : CalibrationSample :=
  { rx := v, ry := v, hx := v, hy := v, nx := v, ny := v, screenX := tx, screenY := ty }

/-- Ten identical samples, target (100, 100). -/
def c1samples : List CalibrationSample := List.replicate 10 (constSample 1 100 100)

/-- The normalized design matrix of c1samples (all non-bias columns are
constant, hence z-scored to 0). -/
def c1A : List (List ℚ) :=
  (normalizeFeatures (c1samples.map (fun x => polyFeatures x.toGazeFeatures))).2.2

/-- The X-axis target vector of c1samples. -/
def c1bx : List ℚ := c1samples.map (fun x => x.screenX)

/-- Ten samples at target x = 100 plus one residual outlier at x = 10000,
all with identical features. -/
def c4samples : List CalibrationSample :=
  List.replicate 10 (constSample 1 100 0) ++ [constSample 1 10000 0]

set_option maxRecDepth 100000
set_option maxHeartbeats 4000000

theorem range10_eval : List.range 10 = [0, 1, 2, 3, 4, 5, 6, 7, 8, 9] := by decide

/-- Evaluation of the normalized design matrix of c1samples. -/
theorem c1A_eval : c1A = List.replicate 10 [1, 0, 0, 0, 0, 0, 0, 0, 0, 0] := by
  norm_num [c1A, c1samples, constSample, polyFeatures, normalizeFeatures,
    mapWithIndex, mapIdxFrom, ratSqrt_zero, range10_eval, List.replicate]

/-- Full evaluation of calibrate on the ten identical samples with
lambda = 1: the fit succeeds and both biases are 1000/11, shrunk toward 0
because the source ridge loop also penalizes the bias row. -/
theorem calibrate_c1_eval :
    calibrate MapperState.initial c1samples 1 =
      ({ coeffsX := some [1000/11, 0, 0, 0, 0, 0, 0, 0, 0, 0],
         coeffsY := some [1000/11, 0, 0, 0, 0, 0, 0, 0, 0, 0],
         featMean := some [0, 1, 1, 1, 1, 1, 1, 1, 1, 1],
         featStd := some [1, 1, 1, 1, 1, 1, 1, 1, 1, 1],
         smoothX := 0, smoothY := 0, outputX := 0, outputY := 0,
         firstPrediction := true, bufX := [], bufY := [] }, true) := by
  norm_num [calibrate, c1samples, constSample, MapperState.initial, polyFeatures,
    normalizeFeatures, solveLeastSquares, gaussianSolve, geForward, backSubst,
    addRidge, mapWithIndex, mapIdxFrom, transpose, matMul, matVecMul, dot,
    argmaxAbs, argmaxAbsAux, jsAbs, ratSqrt_zero, range10_eval, List.replicate]

/-- Evaluation of calibrate on the same samples with lambda = 0: both
normal systems are singular, so the fit fails, but featMean/featStd have
already been overwritten with the batch statistics. -/
theorem calibrate_c2_eval :
    calibrate MapperState.initial c1samples 0 =
      ({ coeffsX := none, coeffsY := none,
         featMean := some [0, 1, 1, 1, 1, 1, 1, 1, 1, 1],
         featStd := some [1, 1, 1, 1, 1, 1, 1, 1, 1, 1],
         smoothX := 0, smoothY := 0, outputX := 0, outputY := 0,
         firstPrediction := true, bufX := [], bufY := [] }, false) := by
  norm_num [calibrate, c1samples, constSample, MapperState.initial, polyFeatures,
    normalizeFeatures, solveLeastSquares, gaussianSolve, geForward, backSubst,
    addRidge, mapWithIndex, mapIdxFrom, transpose, matMul, matVecMul, dot,
    argmaxAbs, argmaxAbsAux, jsAbs, ratSqrt_zero, range10_eval, List.replicate]

/-- Evaluation of calibrate on the eleven-sample batch containing the
target outlier: the fit succeeds on ALL samples, bias 2750/3. -/
theorem calibrate_c4_eval :
    calibrate MapperState.initial c4samples 1 =
      ({ coeffsX := some [2750/3, 0, 0, 0, 0, 0, 0, 0, 0, 0],
         coeffsY := some [0, 0, 0, 0, 0, 0, 0, 0, 0, 0],
         featMean := some [0, 1, 1, 1, 1, 1, 1, 1, 1, 1],
         featStd := some [1, 1, 1, 1, 1, 1, 1, 1, 1, 1],
         smoothX := 0, smoothY := 0, outputX := 0, outputY := 0,
         firstPrediction := true, bufX := [], bufY := [] }, true) := by
  norm_num [calibrate, c4samples, constSample, MapperState.initial, polyFeatures,
    normalizeFeatures, solveLeastSquares, gaussianSolve, geForward, backSubst,
    addRidge, mapWithIndex, mapIdxFrom, transpose, matMul, matVecMul, dot,
    argmaxAbs, argmaxAbsAux, jsAbs, ratSqrt_zero, range10_eval, List.replicate]

-- ===== Claims C1-C4 =====

/-- C1: the claim states that the ridge penalty lambda is applied only to
coefficients w1..w10 of each normal-equations system and that the bias
coefficient w0 (column 0) is excluded, i.e. the solved system is
(XtX + lambda D) w = Xty with D zero at (0,0).  The source ridge loop
AtA[i][i] += lambda runs over every i INCLUDING i = 0.  On ten identical
samples with target 100 and lambda = 1, the code's calibrate produces bias
1000/11 (shrunk toward 0 by the penalty on w0), while the bias-excluded
system prescribed by the claim yields exactly 100.  This contradicts the
repository README (the ridge intercept must be excluded from the penalty)
and the latest config document, which calls this the intercept bug. -/
theorem c1_ridge_penalizes_bias :
    (calibrate MapperState.initial c1samples 1).2 = true ∧
    (calibrate MapperState.initial c1samples 1).1.coeffsX =
      some [1000/11, 0, 0, 0, 0, 0, 0, 0, 0, 0] ∧
    solveLeastSquaresBiasExcluded c1A c1bx 1 =
      some [100, 0, 0, 0, 0, 0, 0, 0, 0, 0] ∧
    ((1000/11 : ℚ) ≠ 100) := by
  refine ⟨by rw [calibrate_c1_eval], by rw [calibrate_c1_eval], ?_, by norm_num⟩
  rw [c1A_eval]
  norm_num [c1bx, c1samples, constSample, solveLeastSquaresBiasExcluded,
    gaussianSolve, geForward, backSubst, addRidgeNoBias, mapWithIndex,
    mapIdxFrom, transpose, matMul, matVecMul, dot, argmaxAbs, argmaxAbsAux,
    jsAbs, range10_eval, List.replicate]

/-- C2: the claim states that every failing calibrate call leaves both the
coefficient vectors coeffsX/coeffsY and the normalization parameters
featMean/featStd exactly as they were.  In the source, normalizeFeatures
stores featMean/featStd before the solves run, so a singular solve (here:
ten identical samples, lambda = 0 being the effective ridge weight since
RIDGE_LAMBDA is absent from src/src/config.ts) returns false with the
normalization parameters already overwritten: featMean goes from none to
the batch statistics while coeffsX stays none. -/
theorem c2_failed_calibration_overwrites_normalization :
    (calibrate MapperState.initial c1samples 0).2 = false ∧
    (calibrate MapperState.initial c1samples 0).1.coeffsX = none ∧
    MapperState.initial.featMean = none ∧
    (calibrate MapperState.initial c1samples 0).1.featMean =
      some [0, 1, 1, 1, 1, 1, 1, 1, 1, 1] ∧
    ¬ (calibrate MapperState.initial c1samples 0).1.featMean =
        MapperState.initial.featMean := by
  refine ⟨by rw [calibrate_c2_eval], by rw [calibrate_c2_eval], rfl,
    by rw [calibrate_c2_eval], ?_⟩
  rw [calibrate_c2_eval]
  simp [MapperState.initial]

/-- C3: the claim states that the expanded feature vector has 11 entries
[1, rx, ry, hx, hy, nx, ny, ey, rx*ry, rx^2, ry^2] built from 7 features
including the eyelid aperture ey, and that the fitted coefficient vectors
have length 11.  The source polyFeatures builds a 10-entry vector from 6
features (the GazeFeatures interface has no ey field), and the fitted
coefficient vectors have length 10, contradicting the repository README
which documents the 11-entry ey-bearing vector. -/
theorem c3_poly_features_are_ten_dimensional :
    (polyFeatures { rx := 1, ry := 2, hx := 3, hy := 4, nx := 5, ny := 6 }).length = 10 ∧
    ¬ (polyFeatures { rx := 1, ry := 2, hx := 3, hy := 4, nx := 5, ny := 6 }).length = 11 ∧
    ((calibrate MapperState.initial c1samples 1).1.coeffsX.getD []).length = 10 := by
  refine ⟨rfl, by norm_num [polyFeatures], ?_⟩
  rw [calibrate_c1_eval]
  rfl

/-- C4: the claim states that calibrate performs a residual-based outlier
pass after the first fit (threshold max(2.5 * median, 50px), drop and refit
when at least 10 samples remain).  The source calibrate has no such pass:
on eleven identical-feature samples with ten targets at 100 and one at
10000, it succeeds with the all-sample fit 2750/3 as bias, even though the
outlier's first-fit residual 10000 - 2750/3 exceeds the claim's threshold
max(2.5 * (2750/3 - 100), 50) while the other ten residuals 2750/3 - 100
(the median) do not, so the claim would require dropping exactly that
sample and refitting on the remaining ten.  The repository README documents
the residual pass; the code lacks it. -/
theorem c4_no_outlier_pass_in_calibrate :
    (calibrate MapperState.initial c4samples 1).2 = true ∧
    (calibrate MapperState.initial c4samples 1).1.coeffsX =
      some [2750/3, 0, 0, 0, 0, 0, 0, 0, 0, 0] ∧
    ((10000 : ℚ) - 2750/3 > max ((5/2) * (2750/3 - 100)) 50) ∧
    ((2750/3 : ℚ) - 100 ≤ max ((5/2) * (2750/3 - 100)) 50) := by
  refine ⟨by rw [calibrate_c4_eval], by rw [calibrate_c4_eval], ?_, ?_⟩
  · rw [max_eq_left (by norm_num)]
    norm_num
  · rw [max_eq_left (by norm_num)]
    norm_num

-- ===== Closure tracking (useTracker.ts, processFrame lines 135-158) =====

/-- The closure refs of useTracker: eyeClosedStartRef (0 meaning "not
closed") and eyeCloseSelectFiredRef. -/
structure ClosureState where
  start : ℚ
  fired : Bool

/-- One frame of the closure tracking logic of processFrame: on a closed
frame (ear below GAZE_FREEZE_EAR) record the start timestamp and clear the
fired flag if the closure just began, compute the elapsed seconds, and emit
the one-shot select once the elapsed time reaches EYE_CLOSE_SELECT_SEC; on
an open frame clear the start marker (the fired flag is left as is).
Returns (new state, eyeClosedSec, eyeCloseSelect). -/
def closureStep (c : ClosureState) (ear now : ℚ) : ClosureState × ℚ × Bool :=
  if ear < GAZE_FREEZE_EAR then
    let st := if c.start = 0 then now else c.start
    let f0 := if c.start = 0 then false else c.fired
    let sec := (now - st) / 1000
    let sel := decide (EYE_CLOSE_SELECT_SEC ≤ sec) && !f0
    (⟨st, f0 || sel⟩, sec, sel)
  else (⟨0, c.fired⟩, 0, false)

/-- The eyeCloseSelect outputs of a sequence of frames, each frame given as
an (ear, timestamp) pair. -/
def closureRun : ClosureState → List (ℚ × ℚ) → List Bool
  | _, [] => []
  | c, p :: ps =>
    (closureStep c p.1 p.2).2.2 :: closureRun (closureStep c p.1 p.2).1 ps

/-- Splitting a bounded universal over Nat at 0. -/
theorem forall_lt_succ_split {P : ℕ → Prop} {i : ℕ} :
    (∀ j < i + 1, P j) ↔ P 0 ∧ ∀ j < i, P (j + 1) := by
  constructor
  · intro hall
    exact ⟨hall 0 (Nat.succ_pos i), fun j hj => hall (j + 1) (Nat.succ_lt_succ hj)⟩
  · intro hs j hj
    cases j with
    | zero => exact hs.1
    | succ k => exact hs.2 k (Nat.lt_of_succ_lt_succ hj)

/-- Characterization of the select outputs along a run of closed frames
whose start timestamp t0 is already recorded: the output at index i is true
exactly when frame i is the first frame whose elapsed time t_i - t0 reaches
2000 ms and no select has fired before (fired flag b still false). -/
theorem closureRun_closed_characterization (ts : List (ℚ × ℚ)) (t0 : ℚ) (b : Bool)
    (h0 : 0 < t0) (hear : ∀ p ∈ ts, p.1 < GAZE_FREEZE_EAR) :
    ∀ i, ((closureRun ⟨t0, b⟩ ts).getD i false = true ↔
      (i < ts.length ∧ b = false ∧ 2000 ≤ (ts.getD i (0, 0)).2 - t0 ∧
        ∀ j < i, ¬ 2000 ≤ (ts.getD j (0, 0)).2 - t0)) := by
  induction ts generalizing b with
  | nil => simp [closureRun]
  | cons p ps ih =>
    obtain ⟨e, t⟩ := p
    have he : e < GAZE_FREEZE_EAR := hear (e, t) (by simp)
    have hne : ¬ (t0 = 0) := ne_of_gt h0
    have hsec : (EYE_CLOSE_SELECT_SEC ≤ (t - t0) / 1000) ↔ (2000 ≤ t - t0) := by
      rw [EYE_CLOSE_SELECT_SEC, le_div_iff₀ (by norm_num : (0:ℚ) < 1000)]
      norm_num
    have hear' : ∀ q ∈ ps, q.1 < GAZE_FREEZE_EAR := fun q hq => hear q (by simp [hq])
    have step :
        closureRun ⟨t0, b⟩ ((e, t) :: ps) =
          (decide (EYE_CLOSE_SELECT_SEC ≤ (t - t0) / 1000) && !b) ::
            closureRun ⟨t0, b || (decide (EYE_CLOSE_SELECT_SEC ≤ (t - t0) / 1000) && !b)⟩ ps := by
      simp [closureRun, closureStep, he, hne]
    intro i
    rw [step]
    cases i with
    | zero =>
      simp only [List.getD_cons_zero, List.length_cons, Bool.and_eq_true,
        decide_eq_true_eq, Bool.not_eq_true']
      constructor
      · rintro ⟨hcross, hb⟩
        exact ⟨Nat.succ_pos _, hb, hsec.mp hcross,
          fun j hj => absurd hj (Nat.not_lt_zero j)⟩
      · rintro ⟨-, hb, hcross, -⟩
        exact ⟨hsec.mpr hcross, hb⟩
    | succ i =>
      simp only [List.getD_cons_succ, List.length_cons]
      rw [ih (b || (decide (EYE_CLOSE_SELECT_SEC ≤ (t - t0) / 1000) && !b)) hear' i]
      have hb' : (b || (decide (EYE_CLOSE_SELECT_SEC ≤ (t - t0) / 1000) && !b)) = false ↔
          (b = false ∧ ¬ 2000 ≤ t - t0) := by
        cases b with
        | false => simp [hsec]
        | true => simp
      rw [hb', forall_lt_succ_split]
      simp only [List.getD_cons_zero, List.getD_cons_succ]
      constructor
      · rintro ⟨hlen, ⟨hb, hfirst⟩, hcross, hall⟩
        exact ⟨by omega, hb, hcross, hfirst, hall⟩
      · rintro ⟨hlen, hb, hcross, hfirst, hall⟩
        exact ⟨by omega, ⟨hb, hfirst⟩, hcross, hall⟩

/-- C7: for every maximal run of consecutive closed frames (EAR below
GAZE_FREEZE_EAR) entered from the open state (start marker 0, any prior
fired flag), the eyeCloseSelect output at index i is true exactly when
frame i is the first frame of the run whose elapsed time since the run's
first frame reaches EYE_CLOSE_SELECT_SEC (2 s = 2000 ms): so the event
fires on exactly one frame of a run whose duration reaches the threshold
(the first such frame), on no later frame while the eyes stay closed, and
never during a shorter run. -/
theorem c7_closure_select_fires_once_per_run :
    ∀ (b : Bool) (e0 t0 : ℚ) (ts : List (ℚ × ℚ)),
      0 < t0 → e0 < GAZE_FREEZE_EAR → (∀ p ∈ ts, p.1 < GAZE_FREEZE_EAR) →
      ∀ i, ((closureRun ⟨0, b⟩ ((e0, t0) :: ts)).getD i false = true ↔
        (i < ((e0, t0) :: ts).length ∧
         2000 ≤ (((e0, t0) :: ts).getD i (0, 0)).2 - t0 ∧
         ∀ j < i, ¬ 2000 ≤ (((e0, t0) :: ts).getD j (0, 0)).2 - t0)) := by
  intro b e0 t0 ts h0 he0 hear i
  have step : closureRun ⟨0, b⟩ ((e0, t0) :: ts) = false :: closureRun ⟨t0, false⟩ ts := by
    norm_num [closureRun, closureStep, he0, EYE_CLOSE_SELECT_SEC]
  rw [step]
  cases i with
  | zero =>
    simp only [List.getD_cons_zero, List.length_cons]
    constructor
    · intro h
      exact absurd h (by simp)
    · rintro ⟨-, hcross, -⟩
      exact absurd hcross (by norm_num)
  | succ i =>
    simp only [List.getD_cons_succ, List.length_cons]
    rw [closureRun_closed_characterization ts t0 false h0 hear i, forall_lt_succ_split]
    simp only [List.getD_cons_zero, List.getD_cons_succ]
    have h00 : ¬ (2000 : ℚ) ≤ ((e0, t0) : ℚ × ℚ).2 - t0 := by norm_num
    constructor
    · rintro ⟨hlen, -, hcross, hall⟩
      exact ⟨by omega, hcross, h00, hall⟩
    · rintro ⟨hlen, hcross, -, hall⟩
      exact ⟨by omega, by trivial, hcross, hall⟩

/-- Witness for C7: a two-frame closed run starting at t = 100 ms with the
second frame at 2200 ms fires the select on its second frame. -/
theorem c7_witness :
    (0 : ℚ) < 100 ∧ ((1/5 : ℚ) < GAZE_FREEZE_EAR) ∧
    (closureRun ⟨0, false⟩ [(1/5, 100), (1/5, 2200)]).getD 1 false = true := by
  have h1 : (0 : ℚ) < 100 := by norm_num
  have h2 : (1/5 : ℚ) < GAZE_FREEZE_EAR := by norm_num [GAZE_FREEZE_EAR]
  have h3 : ∀ p ∈ [((1/5 : ℚ), (2200 : ℚ))], p.1 < GAZE_FREEZE_EAR := by
    intro p hp
    simp only [List.mem_singleton] at hp
    rw [hp]
    norm_num [GAZE_FREEZE_EAR]
  refine ⟨h1, h2, ?_⟩
  rw [c7_closure_select_fires_once_per_run false (1/5) 100 [((1/5 : ℚ), (2200 : ℚ))] h1 h2 h3 1]
  refine ⟨by norm_num, by norm_num, ?_⟩
  intro j hj
  have hj0 : j = 0 := by omega
  subst hj0
  norm_num

-- ===== BlinkDetector (useTracker.ts, second document: BlinkDetector.ts) =====

/-- The mutable fields of the BlinkDetector class. -/
structure BlinkState where
  ear : ℚ
  blinkCount : ℕ
  doubleBlink : Bool
  closedFrames : ℕ
  wasClosed : Bool
  blinkTimes : List ℚ

/-- Field initializers of the BlinkDetector class. -/
def BlinkState.initial : BlinkState :=
  { ear := 0, blinkCount := 0, doubleBlink := false,
    closedFrames := 0, wasClosed := false, blinkTimes := [] }

/-- registerBlink of the source: push the timestamp (in seconds), retain
entries within twice the double-blink window, and if the two most recent
surviving timestamps are within the window, set the doubleBlink flag and
clear the history. -/
def registerBlink (s : BlinkState) (now : ℚ) : BlinkState :=
  let times := (s.blinkTimes ++ [now]).filter
    (fun x => decide (now - x < DOUBLE_BLINK_WINDOW_SEC * 2))
  if 2 ≤ times.length ∧
      times.getD (times.length - 1) 0 - times.getD (times.length - 2) 0 ≤
        DOUBLE_BLINK_WINDOW_SEC
  then { s with blinkCount := s.blinkCount + 1, doubleBlink := true, blinkTimes := [] }
  else { s with blinkCount := s.blinkCount + 1, blinkTimes := times }

/-- update of the source BlinkDetector: record the EAR, clear the
doubleBlink flag, count consecutive closed frames, and register one blink
when the eye reopens after a closed run of length within
[BLINK_MIN_FRAMES, BLINK_MAX_FRAMES]. -/
def blinkUpdate (s : BlinkState) (ear nowSec : ℚ) : BlinkState :=
  let s1 := { s with ear := ear, doubleBlink := false }
  if ear < EAR_THRESHOLD then
    { s1 with closedFrames := s1.closedFrames + 1, wasClosed := true }
  else
    let s2 := if s1.wasClosed = true ∧ BLINK_MIN_FRAMES ≤ s1.closedFrames ∧
                  s1.closedFrames ≤ BLINK_MAX_FRAMES
              then registerBlink s1 nowSec else s1
    { s2 with closedFrames := 0, wasClosed := false }

/-- The doubleBlink outputs along a sequence of registered blinks.  Each
registration starts from a cleared doubleBlink flag, mirroring the reset
update performs at the top of every frame before registerBlink can run. -/
def registerTrace : BlinkState → List ℚ → List Bool
  | _, [] => []
  | s, t :: ts =>
    let s1 := registerBlink { s with doubleBlink := false } t
    s1.doubleBlink :: registerTrace s1 ts

/-- The intended double-blink pattern: a blink fires the flag exactly when
it follows the previous blink within the double-blink window AND the
previous blink did not itself fire (its pair was consumed and the history
cleared); a first or isolated blink never fires. -/
def specFires : Option ℚ → Bool → List ℚ → List Bool
  | _, _, [] => []
  | prev, pf, t :: ts =>
    let f := match prev with
      | none => false
      | some p => decide (t - p ≤ DOUBLE_BLINK_WINDOW_SEC) && !pf
    f :: specFires (some t) f ts

/-- Invariant linking the blink history to the last registered blink (prev)
and whether it fired (pf): after a fire the history is empty; otherwise the
history ends with the last blink and earlier entries precede it. -/
def BlinkInv (hist : List ℚ) (prev : Option ℚ) (pf : Bool) : Prop :=
  match prev with
  | none => hist = [] ∧ pf = false
  | some p => (pf = true ∧ hist = []) ∨
      (pf = false ∧ ∃ hs, hist = hs ++ [p] ∧ ∀ x ∈ hs, x < p)

/-- The strict ordering hypothesis on the remaining blink timestamps,
anchored at the last registered blink when there is one. -/
def ChainFrom (prev : Option ℚ) (ts : List ℚ) : Prop :=
  match prev with
  | none => List.Chain' (· < ·) ts
  | some p => List.Chain' (· < ·) (p :: ts)

/-- Reading the last two entries of a list ending in [a, c]. -/
theorem getD_append_pair (L : List ℚ) (a c : ℚ) :
    ((L ++ [a, c]).getD (L.length + 1) 0 = c) ∧ ((L ++ [a, c]).getD L.length 0 = a) := by
  induction L with
  | nil => exact ⟨rfl, rfl⟩
  | cons x L ih => simpa using ih

/-- The registered-blink trace of the source detector equals the intended
double-blink pattern: starting from history state (prev, pf), each further
blink fires exactly when it is within the window of the previous blink and
the previous blink did not fire. -/
theorem registerTrace_spec_aux :
    ∀ (ts : List ℚ) (s : BlinkState) (prev : Option ℚ) (pf : Bool),
      BlinkInv s.blinkTimes prev pf → ChainFrom prev ts →
      registerTrace s ts = specFires prev pf ts := by
  intro ts
  induction ts with
  | nil => intro s prev pf _ _; rfl
  | cons t ts ih =>
    intro s prev pf hinv hchain
    cases prev with
    | none =>
      obtain ⟨hhist, hpf⟩ := hinv
      subst hpf
      have hchain' : List.Chain' (· < ·) (t :: ts) := hchain
      have hreg : registerBlink { s with doubleBlink := false } t =
          { s with doubleBlink := false, blinkCount := s.blinkCount + 1,
                   blinkTimes := [t] } := by
        have htimes : ((({ s with doubleBlink := false } : BlinkState).blinkTimes ++ [t]).filter
            (fun x => decide (t - x < DOUBLE_BLINK_WINDOW_SEC * 2))) = [t] := by
          norm_num [hhist, DOUBLE_BLINK_WINDOW_SEC]
        simp only [registerBlink, htimes]
        rw [if_neg]
        intro hcond
        exact absurd hcond.1 (by norm_num)
      simp only [registerTrace, specFires, hreg]
      refine congrArg (List.cons false) ?_
      refine ih _ (some t) false ?_ hchain'
      exact Or.inr ⟨rfl, [], by simp, by simp⟩
    | some p =>
      have hpt : p < t := (List.chain'_cons.mp hchain).1
      have hchain' : List.Chain' (· < ·) (t :: ts) :=
        (List.chain'_cons.mp hchain).2
      rcases hinv with ⟨hpf, hhist⟩ | ⟨hpf, hs, hhist, hlt⟩
      · -- previous blink fired: history empty, this blink cannot re-fire
        subst hpf
        have hreg : registerBlink { s with doubleBlink := false } t =
            { s with doubleBlink := false, blinkCount := s.blinkCount + 1,
                     blinkTimes := [t] } := by
          have htimes : ((({ s with doubleBlink := false } : BlinkState).blinkTimes ++ [t]).filter
              (fun x => decide (t - x < DOUBLE_BLINK_WINDOW_SEC * 2))) = [t] := by
            norm_num [hhist, DOUBLE_BLINK_WINDOW_SEC]
          simp only [registerBlink, htimes]
          rw [if_neg]
          intro hcond
          exact absurd hcond.1 (by norm_num)
        simp only [registerTrace, specFires, hreg]
        rw [show (decide (t - p ≤ DOUBLE_BLINK_WINDOW_SEC) && !true) = false from by simp]
        refine congrArg₂ List.cons (by simp) ?_
        refine ih _ (some t) false ?_ hchain'
        exact Or.inr ⟨rfl, [], by simp, by simp⟩
      · -- previous blink did not fire: history is hs ++ [p]
        subst hpf
        by_cases hwin : t - p < DOUBLE_BLINK_WINDOW_SEC * 2
        · -- p survives the retention filter
          have hfilt : ((({ s with doubleBlink := false } : BlinkState).blinkTimes ++ [t]).filter
              (fun x => decide (t - x < DOUBLE_BLINK_WINDOW_SEC * 2))) =
              hs.filter (fun x => decide (t - x < DOUBLE_BLINK_WINDOW_SEC * 2)) ++ [p, t] := by
            have : ((s.blinkTimes ++ [t]) : List ℚ) = hs ++ ([p] ++ [t]) := by
              rw [hhist, List.append_assoc]
            simp only [this]
            rw [List.filter_append]
            have hp' : (decide (t - p < DOUBLE_BLINK_WINDOW_SEC * 2)) = true := by
              simpa using hwin
            have hwin1 : t - p < 1 := by
              rw [DOUBLE_BLINK_WINDOW_SEC] at hwin
              linarith
            norm_num [DOUBLE_BLINK_WINDOW_SEC, hwin1]
          set hs' := hs.filter (fun x => decide (t - x < DOUBLE_BLINK_WINDOW_SEC * 2)) with hhs'
          have hlen : (hs' ++ [p, t]).length = hs'.length + 2 := by simp
          have hlast : (hs' ++ [p, t]).getD ((hs' ++ [p, t]).length - 1) 0 = t := by
            rw [hlen]
            have h2 : hs'.length + 2 - 1 = hs'.length + 1 := by omega
            rw [h2]
            exact (getD_append_pair hs' p t).1
          have hprev : (hs' ++ [p, t]).getD ((hs' ++ [p, t]).length - 2) 0 = p := by
            rw [hlen]
            have h2 : hs'.length + 2 - 2 = hs'.length := by omega
            rw [h2]
            exact (getD_append_pair hs' p t).2
          by_cases hfire : t - p ≤ DOUBLE_BLINK_WINDOW_SEC
          · -- double blink: fire and clear the history
            have hreg : registerBlink { s with doubleBlink := false } t =
                { s with doubleBlink := true, blinkCount := s.blinkCount + 1,
                         blinkTimes := [] } := by
              simp only [registerBlink, hfilt]
              rw [if_pos]
              constructor
              · rw [hlen]; omega
              · rw [hlast, hprev]; exact hfire
            simp only [registerTrace, specFires, hreg]
            rw [show (decide (t - p ≤ DOUBLE_BLINK_WINDOW_SEC) && !false) = true from by
              simp [hfire]]
            refine congrArg₂ List.cons (by simp) ?_
            refine ih _ (some t) true ?_ hchain'
            exact Or.inl ⟨rfl, rfl⟩
          · -- gap in (window, 2*window): keep the history, no fire
            have hreg : registerBlink { s with doubleBlink := false } t =
                { s with doubleBlink := false, blinkCount := s.blinkCount + 1,
                         blinkTimes := hs' ++ [p, t] } := by
              simp only [registerBlink, hfilt]
              rw [if_neg]
              intro hcond
              rw [hlast, hprev] at hcond
              exact hfire hcond.2
            simp only [registerTrace, specFires, hreg]
            rw [show (decide (t - p ≤ DOUBLE_BLINK_WINDOW_SEC) && !false) = false from by
              simp [hfire]]
            refine congrArg₂ List.cons (by simp) ?_
            refine ih _ (some t) false ?_ hchain'
            refine Or.inr ⟨rfl, hs' ++ [p], by simp, ?_⟩
            intro x hx
            rcases List.mem_append.mp hx with hx' | hx'
            · have hxp : x < p := hlt x (List.mem_of_mem_filter hx')
              exact lt_trans hxp hpt
            · rw [List.mem_singleton.mp hx']
              exact hpt
        · -- p (and everything before it) aged out of the retention filter
          have hfilt : ((({ s with doubleBlink := false } : BlinkState).blinkTimes ++ [t]).filter
              (fun x => decide (t - x < DOUBLE_BLINK_WINDOW_SEC * 2))) = [t] := by
            have : ((s.blinkTimes ++ [t]) : List ℚ) = hs ++ ([p] ++ [t]) := by
              rw [hhist, List.append_assoc]
            simp only [this]
            rw [List.filter_append]
            have hp' : (decide (t - p < DOUBLE_BLINK_WINDOW_SEC * 2)) = false := by
              simpa using hwin
            have hnil : hs.filter (fun x => decide (t - x < DOUBLE_BLINK_WINDOW_SEC * 2)) = [] := by
              rw [List.filter_eq_nil_iff]
              intro x hx
              have hxp : x < p := hlt x hx
              simp only [decide_eq_true_eq, not_lt]
              have : ¬ (t - p < DOUBLE_BLINK_WINDOW_SEC * 2) := hwin
              linarith [not_lt.mp this]
            rw [hnil]
            have hwin1 : ¬ (t - p < 1) := by
              rw [DOUBLE_BLINK_WINDOW_SEC] at hwin
              intro h
              exact hwin (by linarith)
            norm_num [DOUBLE_BLINK_WINDOW_SEC, hwin1]
          have hreg : registerBlink { s with doubleBlink := false } t =
              { s with doubleBlink := false, blinkCount := s.blinkCount + 1,
                       blinkTimes := [t] } := by
            simp only [registerBlink, hfilt]
            rw [if_neg]
            intro hcond
            exact absurd hcond.1 (by norm_num)
          have hnofire : ¬ (t - p ≤ DOUBLE_BLINK_WINDOW_SEC) := by
            have h1 : ¬ (t - p < DOUBLE_BLINK_WINDOW_SEC * 2) := hwin
            rw [DOUBLE_BLINK_WINDOW_SEC] at h1 ⊢
            intro h2
            have := not_lt.mp h1
            linarith
          simp only [registerTrace, specFires, hreg]
          rw [show (decide (t - p ≤ DOUBLE_BLINK_WINDOW_SEC) && !false) = false from by
            simp [hnofire]]
          refine congrArg₂ List.cons (by simp) ?_
          refine ih _ (some t) false ?_ hchain'
          exact Or.inr ⟨rfl, [], by simp, by simp⟩

/-- C8: along any strictly increasing sequence of registered blinks, the
doubleBlink flag follows the one-shot pair pattern: it is true exactly on
the frame registering a blink that lies within DOUBLE_BLINK_WINDOW_SEC of
the immediately preceding blink whose own registration did not fire (the
fire clears the history, so a third blink cannot re-trigger against the
same pair); a first or isolated blink never fires. -/
theorem c8_double_blink_fires_once_per_pair :
    ∀ (ts : List ℚ), List.Chain' (· < ·) ts →
      registerTrace BlinkState.initial ts = specFires none false ts := by
  intro ts hchain
  exact registerTrace_spec_aux ts BlinkState.initial none false ⟨rfl, rfl⟩ hchain

/-- Witness for C8: four blinks at 1 s, 1.3 s, 1.45 s, 1.8 s.  The second
fires (gap 0.3 s), the third does not (its pair was consumed), the fourth
fires again. -/
theorem c8_witness :
    List.Chain' (· < ·) [(1 : ℚ), 13/10, 29/20, 9/5] ∧
    registerTrace BlinkState.initial [(1 : ℚ), 13/10, 29/20, 9/5] =
      [false, true, false, true] := by
  have hc : List.Chain' (· < ·) [(1 : ℚ), 13/10, 29/20, 9/5] := by
    norm_num [List.chain'_cons, List.chain'_singleton]
  refine ⟨hc, ?_⟩
  rw [c8_double_blink_fires_once_per_pair _ hc]
  norm_num [specFires, DOUBLE_BLINK_WINDOW_SEC]

-- ===== The per-frame tracker loop (useTracker.ts, processFrame) =====

/-- The TrackerState interface published to the UI. -/
structure TrackerState where
  isLoading : Bool
  error : Option String
  faceDetected : Bool
  ear : ℚ
  blinkCount : ℕ
  doubleBlink : Bool
  irisRx : ℚ
  irisRy : ℚ
  headX : ℚ
  headY : ℚ
  noseX : ℚ
  noseY : ℚ
  gazeX : ℚ
  gazeY : ℚ
  gazeValid : Bool
  fps : ℚ
  eyesClosed : Bool
  eyeClosedSec : ℚ
  eyeCloseSelect : Bool

/-- INITIAL_STATE of the source. -/
def TrackerState.initial : TrackerState :=
  { isLoading := true, error := none, faceDetected := false, ear := 0,
    blinkCount := 0, doubleBlink := false, irisRx := 0, irisRy := 0,
    headX := 0, headY := 0, noseX := 0, noseY := 0, gazeX := 0, gazeY := 0,
    gazeValid := false, fps := 0, eyesClosed := false, eyeClosedSec := 0,
    eyeCloseSelect := false }

/-- The per-frame data the landmark detector supplies when a face is
present: the frame's EAR and the extracted GazeFeatures.  (Both are pure
real-valued functions of the landmark frame - computeEAR and
extractFeatures - whose geometry involves square roots; the claims below
quantify over their values, so the frame carries them directly.) -/
structure FrameInput where
  ear : ℚ
  features : GazeFeatures

/-- The refs of the useTracker hook: the blink detector, the closure refs,
the recovery countdown, the gaze mapper, lastGazeRef, fpsRef, prevTimeRef
and the published React state. -/
structure LoopState where
  blink : BlinkState
  closure : ClosureState
  recovery : ℕ
  mapper : MapperState
  lastGazeX : ℚ
  lastGazeY : ℚ
  fps : ℚ
  prevTime : ℚ
  published : TrackerState

/-- processFrame of the source, one frame: update the FPS estimate, then
either publish only faceDetected := false and the new FPS (no landmarks),
or run blink update, closure tracking, the freeze/recovery gate and - only
when not frozen and calibrated - the gaze prediction, then publish the
full snapshot.  Feature extraction always runs (the features field of the
published state is set on every face frame regardless of freezing). -/
def processFrame (ls : LoopState) (input : Option FrameInput) (now w h : ℚ) :
    LoopState :=
  let dt := now - ls.prevTime
  let fps1 := if 0 < dt then (9/10) * ls.fps + (1/10) * (1000 / dt) else ls.fps
  match input with
  | none =>
    { ls with
      fps := fps1,
      prevTime := now,
      published := { ls.published with faceDetected := false, fps := fps1 } }
  | some fr =>
    let blink1 := blinkUpdate ls.blink fr.ear (now / 1000)
    let eyesClosed : Bool := decide (blink1.ear < GAZE_FREEZE_EAR)
    let cs := closureStep ls.closure fr.ear now
    let gate := if !eyesClosed && decide (0 < ls.recovery) then (true, ls.recovery - 1)
                else if eyesClosed then (true, GAZE_RECOVERY_FRAMES)
                else (false, ls.recovery)
    let feats := fr.features
    let pr := if !gate.1 && isCalibrated ls.mapper
              then ((predict ls.mapper feats w h).1,
                    (predict ls.mapper feats w h).2.1,
                    (predict ls.mapper feats w h).2.2, true)
              else (ls.mapper, ls.lastGazeX, ls.lastGazeY, isCalibrated ls.mapper)
    { blink := blink1,
      closure := cs.1,
      recovery := gate.2,
      mapper := pr.1,
      lastGazeX := pr.2.1,
      lastGazeY := pr.2.2.1,
      fps := fps1,
      prevTime := now,
      published :=
        { isLoading := false,
          error := none,
          faceDetected := true,
          ear := blink1.ear,
          blinkCount := blink1.blinkCount,
          doubleBlink := blink1.doubleBlink,
          irisRx := feats.rx,
          irisRy := feats.ry,
          headX := feats.hx,
          headY := feats.hy,
          noseX := feats.nx,
          noseY := feats.ny,
          gazeX := pr.2.1,
          gazeY := pr.2.2.1,
          gazeValid := pr.2.2.2,
          fps := fps1,
          eyesClosed := eyesClosed,
          eyeClosedSec := cs.2.1,
          eyeCloseSelect := cs.2.2 } }

/-- Folding processFrame over a list of (input, timestamp) frames. -/
def runFrames (w h : ℚ) : LoopState → List (Option FrameInput × ℚ) → LoopState
  | ls, [] => ls
  | ls, fr :: frs => runFrames w h (processFrame ls fr.1 fr.2 w h) frs

/-- C10: on a frame with no detected face, the published tracker state
keeps every previously published value - isLoading, error, EAR, blink
count, doubleBlink, the iris/head/nose features, the gaze point, the gaze
validity flag, and the three eye-closure fields - except that faceDetected
becomes false and the FPS estimate is updated by the exponential smoothing
rule. -/
theorem c10_no_face_frame_preserves_published_state :
    ∀ (ls : LoopState) (now w h : ℚ),
      (processFrame ls none now w h).published.isLoading = ls.published.isLoading ∧
      (processFrame ls none now w h).published.error = ls.published.error ∧
      (processFrame ls none now w h).published.ear = ls.published.ear ∧
      (processFrame ls none now w h).published.blinkCount = ls.published.blinkCount ∧
      (processFrame ls none now w h).published.doubleBlink = ls.published.doubleBlink ∧
      (processFrame ls none now w h).published.irisRx = ls.published.irisRx ∧
      (processFrame ls none now w h).published.irisRy = ls.published.irisRy ∧
      (processFrame ls none now w h).published.headX = ls.published.headX ∧
      (processFrame ls none now w h).published.headY = ls.published.headY ∧
      (processFrame ls none now w h).published.noseX = ls.published.noseX ∧
      (processFrame ls none now w h).published.noseY = ls.published.noseY ∧
      (processFrame ls none now w h).published.gazeX = ls.published.gazeX ∧
      (processFrame ls none now w h).published.gazeY = ls.published.gazeY ∧
      (processFrame ls none now w h).published.gazeValid = ls.published.gazeValid ∧
      (processFrame ls none now w h).published.eyesClosed = ls.published.eyesClosed ∧
      (processFrame ls none now w h).published.eyeClosedSec = ls.published.eyeClosedSec ∧
      (processFrame ls none now w h).published.eyeCloseSelect = ls.published.eyeCloseSelect ∧
      (processFrame ls none now w h).published.faceDetected = false ∧
      (processFrame ls none now w h).published.fps =
        (if 0 < now - ls.prevTime
         then (9/10) * ls.fps + (1/10) * (1000 / (now - ls.prevTime))
         else ls.fps) := by
  intro ls now w h
  refine ⟨rfl, rfl, rfl, rfl, rfl, rfl, rfl, rfl, rfl, rfl, rfl, rfl, rfl, rfl,
    rfl, rfl, rfl, rfl, rfl⟩

-- ===== C5: no smoothing reset when gaze resumes after a freeze =====

/-- A feature vector whose entries are all zero (its expanded polynomial
vector is [1, 0, ..., 0], so only the bias coefficient contributes). -/
def c5features : GazeFeatures :=
  { rx := 0, ry := 0, hx := 0, hy := 0, nx := 0, ny := 0 }

/-- A calibrated mapper that has already produced one prediction: the EMA
accumulator and moving-average buffer hold the pre-freeze value 100, while
the fitted model now predicts raw 200. -/
def c5mapper : MapperState :=
  { coeffsX := some [200, 0, 0, 0, 0, 0, 0, 0, 0, 0],
    coeffsY := some [0, 0, 0, 0, 0, 0, 0, 0, 0, 0],
    featMean := none, featStd := none,
    smoothX := 100, smoothY := 0, outputX := 100, outputY := 0,
    firstPrediction := false, bufX := [100], bufY := [0] }

/-- Loop state before the freeze: active tracking, no recovery pending. -/
def c5loop0 : LoopState :=
  { blink := BlinkState.initial, closure := ⟨0, false⟩, recovery := 0,
    mapper := c5mapper, lastGazeX := 100, lastGazeY := 0, fps := 0,
    prevTime := 0, published := TrackerState.initial }

/-- One closed frame (EAR 0.2 < GAZE_FREEZE_EAR) followed by nine open
frames (EAR 0.3): the first eight open frames burn the recovery countdown
(GAZE_RECOVERY_FRAMES = 8) and the tenth frame resumes prediction. -/
def c5frames : List (Option FrameInput × ℚ) :=
  [(some ⟨1/5, c5features⟩, 100),
   (some ⟨3/10, c5features⟩, 200),
   (some ⟨3/10, c5features⟩, 300),
   (some ⟨3/10, c5features⟩, 400),
   (some ⟨3/10, c5features⟩, 500),
   (some ⟨3/10, c5features⟩, 600),
   (some ⟨3/10, c5features⟩, 700),
   (some ⟨3/10, c5features⟩, 800),
   (some ⟨3/10, c5features⟩, 900),
   (some ⟨3/10, c5features⟩, 1000)]

/-- C5: the claim states that when prediction resumes after a freeze (eyes
reopened and the recovery countdown just elapsed) the smoothing state - the
EMA accumulator, the ring buffer and the first-prediction flag - is reset
before the resumed prediction.  Running the source loop through a freeze
and recovery shows no such reset exists: on the resume frame the
first-prediction flag is still false, the EMA blends the new raw prediction
200 with the stale pre-freeze accumulator 100 (giving 105), the buffer
still holds the pre-freeze value 100 next to the new 105, and the published
gaze stays at 100 because the dead zone swallows the averaged 102.5.  A
reset, as claimed, would have seeded the EMA at 200 and published 200. -/
theorem c5_no_smoothing_reset_on_resume :
    (runFrames 1920 1080 c5loop0 c5frames).mapper.firstPrediction = false ∧
    (runFrames 1920 1080 c5loop0 c5frames).mapper.bufX = [100, 105] ∧
    (runFrames 1920 1080 c5loop0 c5frames).mapper.smoothX = 105 ∧
    (runFrames 1920 1080 c5loop0 c5frames).published.gazeX = 100 ∧
    (runFrames 1920 1080 c5loop0 c5frames).published.gazeValid = true := by
  norm_num [runFrames, processFrame, blinkUpdate, registerBlink, closureStep,
    predict, applyNormalization, polyFeatures, dot, emaOrSeed, pushBuf, bufAvg,
    isCalibrated, c5frames, c5loop0, c5mapper, c5features, BlinkState.initial,
    TrackerState.initial, EAR_THRESHOLD, GAZE_FREEZE_EAR, GAZE_RECOVERY_FRAMES,
    EYE_CLOSE_SELECT_SEC, SMOOTHING_ALPHA, MOVING_AVG_SIZE, MIN_MOVE_PX,
    DOUBLE_BLINK_WINDOW_SEC, BLINK_MIN_FRAMES, BLINK_MAX_FRAMES]

-- ===== C6: absent model handling =====

/-- A fitted mapper whose raw prediction is (-50, -50), which the final
clamp maps to the screen corner (0, 0). -/
def c6cal : MapperState :=
  { coeffsX := some [-50, 0, 0, 0, 0, 0, 0, 0, 0, 0],
    coeffsY := some [-50, 0, 0, 0, 0, 0, 0, 0, 0, 0],
    featMean := none, featStd := none,
    smoothX := 0, smoothY := 0, outputX := 0, outputY := 0,
    firstPrediction := true, bufX := [], bufY := [] }

/-- C6 counterexample: the claim states that with no fitted model predict
returns an explicitly-marked invalid result rather than a numeric gaze
point.  The source predict returns the plain numeric point (0, 0) - and a
calibrated mapper can legitimately return the very same point (a raw
prediction clamped to the screen corner), so the uncalibrated return value
carries no invalidity marking at all. -/
theorem c6_uncalibrated_predict_returns_plain_point :
    (predict MapperState.initial c5features 1920 1080).2 = (0, 0) ∧
    (predict MapperState.initial c5features 1920 1080).1 = MapperState.initial ∧
    isCalibrated MapperState.initial = false ∧
    isCalibrated c6cal = true ∧
    (predict c6cal c5features 1920 1080).2 = (0, 0) := by
  refine ⟨rfl, rfl, rfl, rfl, ?_⟩
  norm_num [predict, c6cal, c5features, applyNormalization, polyFeatures, dot,
    emaOrSeed, pushBuf, bufAvg, MIN_MOVE_PX, MOVING_AVG_SIZE, SMOOTHING_ALPHA]

/-- C6 amended: with no fitted model (coeffsX null), predict returns the
fixed sentinel (0, 0) and leaves its state untouched (it never
extrapolates), and the tracker loop never calls predict in that case: the
published state keeps the last gaze point and carries the explicit
gazeValid = false flag, which is how the absence of a model is marked. -/
theorem c6_absent_model_flagged_by_gaze_valid :
    ∀ (ls : LoopState) (fr : FrameInput) (now w h : ℚ),
      ls.mapper.coeffsX = none →
      (processFrame ls (some fr) now w h).published.gazeValid = false ∧
      (processFrame ls (some fr) now w h).published.gazeX = ls.lastGazeX ∧
      (processFrame ls (some fr) now w h).published.gazeY = ls.lastGazeY ∧
      (processFrame ls (some fr) now w h).mapper = ls.mapper ∧
      predict ls.mapper fr.features w h = (ls.mapper, (0, 0)) := by
  intro ls fr now w h hnone
  have hcal : isCalibrated ls.mapper = false := by
    simp [isCalibrated, hnone]
  have hpred : predict ls.mapper fr.features w h = (ls.mapper, (0, 0)) := by
    simp [predict, hnone]
  refine ⟨?_, ?_, ?_, ?_, hpred⟩ <;>
    simp [processFrame, hcal]

/-- An uncalibrated loop state with a remembered last gaze point (7, 8). -/
def c6loop : LoopState :=
  { blink := BlinkState.initial, closure := ⟨0, false⟩, recovery := 0,
    mapper := MapperState.initial, lastGazeX := 7, lastGazeY := 8, fps := 0,
    prevTime := 0, published := TrackerState.initial }

/-- Witness for C6: one face frame on the uncalibrated loop publishes
gazeValid = false and keeps the last gaze point (7, 8). -/
theorem c6_witness :
    c6loop.mapper.coeffsX = none ∧
    (processFrame c6loop (some ⟨3/10, c5features⟩) 50 1920 1080).published.gazeValid = false ∧
    (processFrame c6loop (some ⟨3/10, c5features⟩) 50 1920 1080).published.gazeX = 7 ∧
    (processFrame c6loop (some ⟨3/10, c5features⟩) 50 1920 1080).published.gazeY = 8 := by
  have h := c6_absent_model_flagged_by_gaze_valid c6loop ⟨3/10, c5features⟩ 50 1920 1080 rfl
  exact ⟨rfl, h.1, by rw [h.2.1]; exact rfl, by rw [h.2.2.1]; exact rfl⟩

-- ===== C9: the dead zone =====

/-- A calibrated mapper engineered so that two consecutive moving averages
are 39 and 41: the buffer holds fifteen 39s, the EMA accumulator is 141/19,
and the model's raw prediction is the constant 639. -/
def c9state : MapperState :=
  { coeffsX := some [639, 0, 0, 0, 0, 0, 0, 0, 0, 0],
    coeffsY := some [0, 0, 0, 0, 0, 0, 0, 0, 0, 0],
    featMean := none, featStd := none,
    smoothX := 141/19, smoothY := 0, outputX := 0, outputY := 0,
    firstPrediction := false, bufX := List.replicate 15 39,
    bufY := List.replicate 15 0 }

/-- C9 counterexample: the claim states the reported gaze point is
unchanged between two consecutive frames whose moving-averaged predictions
differ by less than MIN_MOVE_PX.  Here consecutive averaged predictions are
(39, 0) and (41, 0) - they differ by 2 < 40 - yet the reported point jumps
from (0, 0) to (41, 0), because the dead zone measures the distance to the
previously REPORTED point (held at 0 by earlier sub-threshold motion), not
the distance between consecutive averages, and 41 exceeds the threshold
while 39 did not. -/
theorem c9_consecutive_averages_counterexample :
    predictAvg c9state c5features = (39, 0) ∧
    predictAvg (predict c9state c5features 1920 1080).1 c5features = (41, 0) ∧
    ((41 : ℚ) - 39)^2 + ((0 : ℚ) - 0)^2 < MIN_MOVE_PX^2 ∧
    (predict c9state c5features 1920 1080).2 = (0, 0) ∧
    (predict (predict c9state c5features 1920 1080).1 c5features 1920 1080).2 = (41, 0) := by
  refine ⟨?_, ?_, by norm_num [MIN_MOVE_PX], ?_, ?_⟩ <;>
    norm_num [predict, predictAvg, c9state, c5features, applyNormalization,
      polyFeatures, dot, emaOrSeed, pushBuf, bufAvg, MIN_MOVE_PX,
      MOVING_AVG_SIZE, SMOOTHING_ALPHA, List.replicate]

/-- For a calibrated mapper, the returned point is the clamp of the updated
output fields. -/
theorem predict_snd_clamps_output (s : MapperState) (cx cy : List ℚ)
    (f : GazeFeatures) (w h : ℚ) (hx : s.coeffsX = some cx) (hy : s.coeffsY = some cy) :
    (predict s f w h).2 =
      (max 0 (min w (predict s f w h).1.outputX),
       max 0 (min h (predict s f w h).1.outputY)) := by
  simp only [predict, hx, hy]

/-- predict keeps the fitted coefficients and clears the first-prediction
flag. -/
theorem predict_state_invariants (s : MapperState) (cx cy : List ℚ)
    (f : GazeFeatures) (w h : ℚ) (hx : s.coeffsX = some cx) (hy : s.coeffsY = some cy) :
    (predict s f w h).1.coeffsX = some cx ∧
    (predict s f w h).1.coeffsY = some cy ∧
    (predict s f w h).1.firstPrediction = false := by
  simp [predict, hx, hy]

/-- The dead zone: when the frame's moving-averaged prediction is within
MIN_MOVE_PX of the held output, predict keeps the output unchanged. -/
theorem predict_holds_output (s : MapperState) (cx cy : List ℚ)
    (f : GazeFeatures) (w h : ℚ) (hx : s.coeffsX = some cx) (hy : s.coeffsY = some cy)
    (hfp : s.firstPrediction = false)
    (hsmall : ((predictAvg s f).1 - s.outputX)^2 + ((predictAvg s f).2 - s.outputY)^2 ≤
      MIN_MOVE_PX^2) :
    (predict s f w h).1.outputX = s.outputX ∧ (predict s f w h).1.outputY = s.outputY := by
  simp only [predictAvg, hx, hy, hfp] at hsmall
  simp only [predict, hx, hy, hfp]
  constructor <;>
  · rw [if_neg]
    rw [if_neg]
    · simp
    exact not_lt.mpr hsmall

/-- C9 amended: between two consecutive predict calls, if the averaged
prediction of the second frame is within MIN_MOVE_PX of the point reported
after the first frame (the held output), the reported gaze point and the
held output fields are unchanged; the point moves only when that distance
exceeds the threshold. -/
theorem c9_reported_point_holds_within_threshold :
    ∀ (s : MapperState) (f1 f2 : GazeFeatures) (w h : ℚ),
      ((predictAvg (predict s f1 w h).1 f2).1 - (predict s f1 w h).1.outputX)^2 +
        ((predictAvg (predict s f1 w h).1 f2).2 - (predict s f1 w h).1.outputY)^2 ≤
          MIN_MOVE_PX^2 →
      (predict (predict s f1 w h).1 f2 w h).1.outputX = (predict s f1 w h).1.outputX ∧
      (predict (predict s f1 w h).1 f2 w h).1.outputY = (predict s f1 w h).1.outputY ∧
      (predict (predict s f1 w h).1 f2 w h).2 = (predict s f1 w h).2 := by
  intro s f1 f2 w h hsmall
  cases hx : s.coeffsX with
  | none =>
    have h1 : predict s f1 w h = (s, (0, 0)) := by simp [predict, hx]
    have h2 : predict s f2 w h = (s, (0, 0)) := by simp [predict, hx]
    simp only [h1, h2]
    exact ⟨by trivial, by trivial, by trivial⟩
  | some cx =>
    cases hy : s.coeffsY with
    | none =>
      have h1 : predict s f1 w h = (s, (0, 0)) := by simp [predict, hx, hy]
      have h2 : predict s f2 w h = (s, (0, 0)) := by simp [predict, hx, hy]
      simp only [h1, h2]
      exact ⟨by trivial, by trivial, by trivial⟩
    | some cy =>
      obtain ⟨hx1, hy1, hfp1⟩ := predict_state_invariants s cx cy f1 w h hx hy
      have hold := predict_holds_output ((predict s f1 w h).1) cx cy f2 w h hx1 hy1 hfp1 hsmall
      refine ⟨hold.1, hold.2, ?_⟩
      rw [predict_snd_clamps_output ((predict s f1 w h).1) cx cy f2 w h hx1 hy1,
        hold.1, hold.2, predict_snd_clamps_output s cx cy f1 w h hx hy]

/-- A freshly calibrated mapper predicting the constant raw point (50, 50). -/
def c9wstate : MapperState :=
  { coeffsX := some [50, 0, 0, 0, 0, 0, 0, 0, 0, 0],
    coeffsY := some [50, 0, 0, 0, 0, 0, 0, 0, 0, 0],
    featMean := none, featStd := none,
    smoothX := 0, smoothY := 0, outputX := 0, outputY := 0,
    firstPrediction := true, bufX := [], bufY := [] }

/-- Witness for C9: two identical frames on a fresh fit; the second frame's
averaged prediction coincides with the held output, so the reported point
repeats. -/
theorem c9_witness :
    (((predictAvg (predict c9wstate c5features 1920 1080).1 c5features).1 -
        (predict c9wstate c5features 1920 1080).1.outputX)^2 +
      ((predictAvg (predict c9wstate c5features 1920 1080).1 c5features).2 -
        (predict c9wstate c5features 1920 1080).1.outputY)^2 ≤ MIN_MOVE_PX^2) ∧
    (predict (predict c9wstate c5features 1920 1080).1 c5features 1920 1080).2 =
      (predict c9wstate c5features 1920 1080).2 := by
  have hsmall : (((predictAvg (predict c9wstate c5features 1920 1080).1 c5features).1 -
        (predict c9wstate c5features 1920 1080).1.outputX)^2 +
      ((predictAvg (predict c9wstate c5features 1920 1080).1 c5features).2 -
        (predict c9wstate c5features 1920 1080).1.outputY)^2 ≤ MIN_MOVE_PX^2) := by
    norm_num [predict, predictAvg, c9wstate, c5features, applyNormalization,
      polyFeatures, dot, emaOrSeed, pushBuf, bufAvg, MIN_MOVE_PX,
      MOVING_AVG_SIZE, SMOOTHING_ALPHA]
  exact ⟨hsmall,
    (c9_reported_point_holds_within_threshold c9wstate c5features c5features
      1920 1080 hsmall).2.2⟩
